import Mathlib

/-!
Verification of the KungFu python binding layer (`srcs/cpp/src/python/init.cpp`)
and the coordination core it forwards to.

The binding layer is embedded directly from the source: a process-wide
`std::unique_ptr<kungfu::Peer> _default_peer`, set by `kungfu_python_init`,
cleared by `kungfu_python_finialize`, and dereferenced (without any null
check) by every other exposed operation.  A call through a null
`unique_ptr` is undefined behaviour in C++; we model it as a distinct
`nullDeref` trap, kept separate from the structured `notInit` error the
specification speaks about, so that the two outcomes can be compared.

The `kungfu::Peer` class itself is not part of the sources given here
(only the binding that calls it is), so its operations are modelled from
the specification, as indicated on each definition.
-/

namespace KungFu

/-- Observable outcomes of a binding call that does not return normally.
`nullDeref` models the C++ undefined behaviour of calling a member
function through a null `std::unique_ptr`; `notInit` is the structured
`NotInitialized` error named by the specification's error taxonomy. -/
inductive Err where
  | nullDeref
  | notInit
deriving DecidableEq, Repr

/-- Modelled from the spec: the communication Strategy is a tagged
variant (design notes: `enum Strategy { Ring, Tree, ... }`); the concrete
set of variants is not fixed by the spec, two suffice for the model. -/
inductive Strategy where
  | ring
  | tree
deriving DecidableEq, Repr

/-- Modelled from the spec: the Topology (Size) Snapshot
`{global_size, local_size}`, valid as of the last agreed resize. -/
structure Snapshot where
  globalSize : Nat
  localSize : Nat
deriving DecidableEq, Repr

/-- Modelled from the spec: the Strategy is recomputed whenever the
Topology Snapshot changes; the selection rule itself is unspecified, so a
concrete total rule is chosen here. -/
def selectStrategy (s : Snapshot) : Strategy :=
  if s.globalSize ≤ 4 then Strategy.ring else Strategy.tree

/-- Modelled from the spec: the `kungfu::Peer` coordination handle (its
class body is not among the given sources; only the binding calling it
is).  It owns the peer's Identity (`uid`, `rank`, `localRank`,
`detached`), the current Topology Snapshot, the resize epoch counter, the
current Strategy, the Interference Records (operation index mapped to the
epoch active when the operation began), and the Statistics accumulator.
The `pid` field is an instance tag used to reason about object lifetime
(which C++ object the process-wide handle refers to). -/
structure Peer where
  pid : Nat
  uid : Nat
  rank : Nat
  localRank : Nat
  detached : Bool
  snap : Snapshot
  epoch : Nat
  strategy : Strategy
  opEpoch : List (Nat × Nat)
  stats : List (Nat × Nat)
deriving DecidableEq, Repr

/-- The process-wide bootstrap configuration (environment-provided
cluster description) read by the `kungfu::Peer` constructor. -/
structure Config where
  uid : Nat
  rank : Nat
  localRank : Nat
  detached : Bool
  globalSize : Nat
  localSize : Nat
deriving DecidableEq, Repr

/-- Modelled from the spec: the `kungfu::Peer` constructor resolves the
peer's identity and topology from the bootstrap configuration; epoch
starts at 0, records start empty, the Strategy is selected from the
fresh snapshot. -/
def Peer.create (pid : Nat) (c : Config) : Peer :=
  let snap : Snapshot := { globalSize := c.globalSize, localSize := c.localSize }
  { pid := pid, uid := c.uid, rank := c.rank, localRank := c.localRank,
    detached := c.detached, snap := snap, epoch := 0,
    strategy := selectStrategy snap, opEpoch := [], stats := [] }

/-- Modelled from the spec: on commit every peer atomically swaps in a
new Topology Snapshot, increments the epoch, and the Strategy is
recomputed together with the snapshot (one atomic transition). -/
def Peer.commitResize (p : Peer) (n : Nat) : Peer :=
  let snap : Snapshot := { p.snap with globalSize := n }
  { p with snap := snap, epoch := p.epoch + 1, strategy := selectStrategy snap }

/-- Outcome of one resize negotiation round. -/
inductive NegoOutcome where
  | commit
  | reject
  | timeout
deriving DecidableEq, Repr

/-- Modelled from the spec: the vote-and-commit round of the Resize
Negotiator.  `votes` lists every group member's accept/reject vote (an
unreachable peer is treated as reject, so it simply votes `false`);
commit requires unanimity of the whole group; a timed-out round commits
nothing. -/
def negotiate (p : Peer) (votes : List Bool) (timedOut : Bool) : NegoOutcome :=
  if timedOut then NegoOutcome.timeout
  else if votes.length = p.snap.globalSize ∧ votes.all id then NegoOutcome.commit
  else NegoOutcome.reject

/-- Modelled from the spec: `ProposeNewSize`.  Re-issuing an
already-committed proposal for the same target size is a no-op returning
true; otherwise the negotiation round runs and the peer commits exactly
when the round commits, returning the boolean outcome (reject and
timeout are signalled via `false`, not via a fault). -/
def Peer.proposeNewSize (p : Peer) (n : Nat) (votes : List Bool) (timedOut : Bool) :
    Bool × Peer :=
  if n = p.snap.globalSize then (true, p)
  else
    match negotiate p votes timedOut with
    | NegoOutcome.commit => (true, p.commitResize n)
    | NegoOutcome.reject => (false, p)
    | NegoOutcome.timeout => (false, p)

/-- Modelled from the spec: the collective layer registers the start of
the in-flight operation `idx`, recording the epoch active at that
moment in the Interference Records. -/
def Peer.beginOp (p : Peer) (idx : Nat) : Peer :=
  { p with opEpoch := (idx, p.epoch) :: p.opEpoch }

/-- Modelled from the spec: `CheckInterference` is a pure read returning
true iff the epoch recorded when operation `idx` began differs from the
current epoch; an operation with no record is not interfered with. -/
def Peer.checkInterference (p : Peer) (idx : Nat) : Bool :=
  match p.opEpoch.lookup idx with
  | some e => decide (e ≠ p.epoch)
  | none => false

/-- Modelled from the spec: strategy rotation order. -/
def rotateStrategy : Strategy → Strategy
  | Strategy.ring => Strategy.tree
  | Strategy.tree => Strategy.ring

/-- Modelled from the spec: `ChangeStrategy` rotates the active Strategy
and returns whether a change actually occurred. -/
def Peer.changeStrategy (p : Peer) : Bool × Peer :=
  let s := rotateStrategy p.strategy
  (decide (s ≠ p.strategy), { p with strategy := s })

/-- Bump the monotonic counter for operation `idx` in the Statistics
accumulator (association list, most recent entry first). -/
def bumpStat (l : List (Nat × Nat)) (idx : Nat) : List (Nat × Nat) :=
  (idx, (l.lookup idx).getD 0 + 1) :: l

/-- Modelled from the spec: `LogStats` records/emits counters for
operation `idx`; an internal fault is swallowed and merely omits the
output (result `none`), never failing the caller. -/
def Peer.logStats (p : Peer) (idx : Nat) (fault : Bool) : Option String × Peer :=
  if fault then (none, p)
  else (some (toString idx), { p with stats := bumpStat p.stats idx })

/-- Printable name of a Strategy variant. -/
def strategyName : Strategy → String
  | Strategy.ring => "ring"
  | Strategy.tree => "tree"

/-- Modelled from the spec: `PrintStategyStats` (name as in the source)
emits the strategy statistics without touching any state; an internal
fault is swallowed and merely omits the output. -/
def Peer.printStategyStats (p : Peer) (fault : Bool) : Option String × Peer :=
  if fault then (none, p) else (some (strategyName p.strategy), p)

/-- The process state seen by the binding layer of `init.cpp`:
`handle` is `std::unique_ptr<kungfu::Peer> _default_peer`; `alive` is
the list of instance tags of the `kungfu::Peer` objects currently alive
in the process (tracking construction and destruction performed by
`unique_ptr::reset`); `nextPid` generates fresh instance tags. -/
structure Proc where
  handle : Option Peer
  alive : List Nat
  nextPid : Nat
deriving DecidableEq, Repr

/-- Process state at program start: the global `_default_peer` is null
and no `kungfu::Peer` has been constructed. -/
def procStart : Proc := { handle := none, alive := [], nextPid := 0 }

/-- `kungfu_python_init`: `_default_peer.reset(new kungfu::Peer)` — a
fresh Peer is constructed from the bootstrap configuration, installed in
the process-wide handle, and the previously owned Peer (if any) is
destroyed by `reset`. -/
def kungfu_python_init (c : Config) (s : Proc) : Proc :=
  { handle := some (Peer.create s.nextPid c),
    alive := [s.nextPid],
    nextPid := s.nextPid + 1 }

/-- `kungfu_python_finialize` (name as in the source):
`_default_peer.reset(nullptr)` — the owned Peer (if any) is destroyed
and the handle becomes null; resetting an already-null pointer does
nothing. -/
def kungfu_python_finialize (s : Proc) : Proc :=
  { s with handle := none, alive := [] }

/-- A binding call that dereferences `_default_peer` to perform a pure
read `f` of the current Peer.  The source performs no null check, so a
null handle is a null dereference, not a structured error. -/
def readPeer (s : Proc) (f : Peer → α) : Except Err α × Proc :=
  match s.handle with
  | none => (Except.error Err.nullDeref, s)
  | some p => (Except.ok (f p), s)

/-- `kungfu_uid`: `_default_peer->Uid()`. -/
def kungfu_uid (s : Proc) : Except Err Nat × Proc := readPeer s Peer.uid

/-- `kungfu_detached`: `_default_peer->Detached()`. -/
def kungfu_detached (s : Proc) : Except Err Bool × Proc := readPeer s Peer.detached

/-- `kungfu_rank`: `_default_peer->Rank()`. -/
def kungfu_rank (s : Proc) : Except Err Nat × Proc := readPeer s Peer.rank

/-- `kungfu_size`: `_default_peer->Size()` — the global size of the
current (last committed) Topology Snapshot. -/
def kungfu_size (s : Proc) : Except Err Nat × Proc :=
  readPeer s (fun p => p.snap.globalSize)

/-- `kungfu_local_rank`: `_default_peer->LocalRank()`. -/
def kungfu_local_rank (s : Proc) : Except Err Nat × Proc := readPeer s Peer.localRank

/-- `kungfu_local_size`: `_default_peer->LocalSize()`. -/
def kungfu_local_size (s : Proc) : Except Err Nat × Proc :=
  readPeer s (fun p => p.snap.localSize)

/-- `kungfu_barrier`: `_default_peer->Barrier()`.  The blocking group
synchronisation itself is modelled separately (`BStep`/`BTrace` below);
at the level of the local process state a completed barrier changes
nothing, and a null handle is a null dereference. -/
def kungfu_barrier (s : Proc) : Except Err Unit × Proc :=
  match s.handle with
  | none => (Except.error Err.nullDeref, s)
  | some _ => (Except.ok (), s)

/-- `kungfu_propose_new_size`: `_default_peer->ProposeNewSize(new_size)`. -/
def kungfu_propose_new_size (s : Proc) (n : Nat) (votes : List Bool) (t : Bool) :
    Except Err Bool × Proc :=
  match s.handle with
  | none => (Except.error Err.nullDeref, s)
  | some p =>
    let r := p.proposeNewSize n votes t
    (Except.ok r.1, { s with handle := some r.2 })

/-- `kungfu_check_interference`: `_default_peer->CheckInterference(idx)`. -/
def kungfu_check_interference (s : Proc) (idx : Nat) : Except Err Bool × Proc :=
  readPeer s (fun p => p.checkInterference idx)

/-- `kungfu_change_strategy`: `_default_peer->ChangeStrategy()`. -/
def kungfu_change_strategy (s : Proc) : Except Err Bool × Proc :=
  match s.handle with
  | none => (Except.error Err.nullDeref, s)
  | some p =>
    let r := p.changeStrategy
    (Except.ok r.1, { s with handle := some r.2 })

/-- `kungfu_log_stats`: `_default_peer->LogStats(idx)`. -/
def kungfu_log_stats (s : Proc) (idx : Nat) (fault : Bool) :
    Except Err (Option String) × Proc :=
  match s.handle with
  | none => (Except.error Err.nullDeref, s)
  | some p =>
    let r := p.logStats idx fault
    (Except.ok r.1, { s with handle := some r.2 })

/-- `kungfu_print_strategy_stats`: `_default_peer->PrintStategyStats()`. -/
def kungfu_print_strategy_stats (s : Proc) (fault : Bool) :
    Except Err (Option String) × Proc :=
  match s.handle with
  | none => (Except.error Err.nullDeref, s)
  | some p => (Except.ok (p.printStategyStats fault).1, s)

/-- One call into the binding layer, with its arguments (used to reason
about whole process runs). -/
inductive PEvent where
  | pinit (c : Config)
  | pfin
  | quid
  | qdetached
  | qrank
  | qsize
  | qlocalRank
  | qlocalSize
  | qbarrier
  | qpropose (n : Nat) (votes : List Bool) (t : Bool)
  | qcheck (idx : Nat)
  | qchange
  | qlog (idx : Nat) (f : Bool)
  | qprint (f : Bool)
  | qbegin (idx : Nat)
deriving DecidableEq, Repr

/-- Whether a call is one of the two lifecycle-bracket calls. -/
def PEvent.isLifecycle : PEvent → Bool
  | PEvent.pinit _ => true
  | PEvent.pfin => true
  | _ => false

/-- State effect of one binding call on the process state (the returned
value is dropped; `qbegin` is the collective layer registering the start
of an in-flight operation on the current Peer). -/
def pstep (s : Proc) : PEvent → Proc
  | PEvent.pinit c => kungfu_python_init c s
  | PEvent.pfin => kungfu_python_finialize s
  | PEvent.quid => (kungfu_uid s).2
  | PEvent.qdetached => (kungfu_detached s).2
  | PEvent.qrank => (kungfu_rank s).2
  | PEvent.qsize => (kungfu_size s).2
  | PEvent.qlocalRank => (kungfu_local_rank s).2
  | PEvent.qlocalSize => (kungfu_local_size s).2
  | PEvent.qbarrier => (kungfu_barrier s).2
  | PEvent.qpropose n votes t => (kungfu_propose_new_size s n votes t).2
  | PEvent.qcheck idx => (kungfu_check_interference s idx).2
  | PEvent.qchange => (kungfu_change_strategy s).2
  | PEvent.qlog idx f => (kungfu_log_stats s idx f).2
  | PEvent.qprint f => (kungfu_print_strategy_stats s f).2
  | PEvent.qbegin idx => { s with handle := s.handle.map (fun p => p.beginOp idx) }

/-- Run a whole sequence of binding calls from a starting process state. -/
def runTrace (s : Proc) : List PEvent → Proc
  | [] => s
  | e :: tr => runTrace (pstep s e) tr

/-- Modelled from the spec: state of one barrier generation of the
Barrier Coordinator — the currently-active peers per the Topology
Snapshot, and those of them that have already issued their `barrier()`
call in this generation. -/
structure BState where
  members : List Nat
  arrived : List Nat
deriving DecidableEq, Repr

/-- An event of the barrier protocol: a peer issues its `barrier()` call
(`arrive`) or its blocked call returns (`release`). -/
inductive BEvent where
  | arrive (q : Nat)
  | release (q : Nat)
deriving DecidableEq, Repr

/-- Modelled from the spec: the Barrier Coordinator's step relation.  A
member may arrive (issue its call); a call may be released (return)
only when every currently-active member has arrived. -/
inductive BStep : BState → BEvent → BState → Prop where
  | arrive (s : BState) (q : Nat) (hq : q ∈ s.members) :
      BStep s (BEvent.arrive q) { s with arrived := q :: s.arrived }
  | release (s : BState) (q : Nat) (hall : ∀ m ∈ s.members, m ∈ s.arrived) :
      BStep s (BEvent.release q) s

/-- A finite interleaving of barrier events permitted by `BStep`. -/
inductive BTrace : BState → List BEvent → BState → Prop where
  | nil (s : BState) : BTrace s [] s
  | cons (s s' s'' : BState) (e : BEvent) (tr : List BEvent)
      (h1 : BStep s e s') (h2 : BTrace s' tr s'') : BTrace s (e :: tr) s''

/-- Concrete configuration used by the closed witnesses below. -/
def cfg0 : Config :=
  { uid := 7, rank := 0, localRank := 0, detached := false,
    globalSize := 2, localSize := 2 }

/-- The Peer the first `kungfu_python_init` constructs from `cfg0`. -/
def peer0 : Peer := Peer.create 0 cfg0

/-- Process state right after the first `kungfu_python_init`. -/
def proc0 : Proc := kungfu_python_init cfg0 procStart

/-! ## Helper lemmas (shared between several claim theorems) -/

theorem readPeer_snd (s : Proc) (f : Peer → α) : (readPeer s f).2 = s := by
  cases h : s.handle <;> simp [readPeer, h]

theorem proposeNewSize_false_frame (p : Peer) (n : Nat) (votes : List Bool) (t : Bool)
    (h : (p.proposeNewSize n votes t).1 = false) :
    (p.proposeNewSize n votes t).2 = p := by
  by_cases hn : n = p.snap.globalSize
  · simp [Peer.proposeNewSize, hn] at h
  · cases ho : negotiate p votes t <;>
      simp [Peer.proposeNewSize, hn, ho] at h ⊢

theorem proposeNewSize_true_size (p : Peer) (n : Nat) (votes : List Bool) (t : Bool)
    (h : (p.proposeNewSize n votes t).1 = true) :
    (p.proposeNewSize n votes t).2.snap.globalSize = n := by
  by_cases hn : n = p.snap.globalSize
  · simp [Peer.proposeNewSize, hn]
  · cases ho : negotiate p votes t <;>
      simp [Peer.proposeNewSize, hn, ho, Peer.commitResize] at h ⊢

theorem proposeNewSize_pid (p : Peer) (n : Nat) (votes : List Bool) (t : Bool) :
    (p.proposeNewSize n votes t).2.pid = p.pid := by
  by_cases hn : n = p.snap.globalSize
  · simp [Peer.proposeNewSize, hn]
  · cases ho : negotiate p votes t <;>
      simp [Peer.proposeNewSize, hn, ho, Peer.commitResize]

theorem changeStrategy_pid (p : Peer) : p.changeStrategy.2.pid = p.pid := by
  simp [Peer.changeStrategy]

theorem logStats_pid (p : Peer) (idx : Nat) (f : Bool) :
    (p.logStats idx f).2.pid = p.pid := by
  cases f <;> simp [Peer.logStats]

theorem beginOp_pid (p : Peer) (idx : Nat) : (p.beginOp idx).pid = p.pid := by
  simp [Peer.beginOp]

/-! ## Claim theorems -/

/-- C1 counterexample: querying `kungfu_uid` before `kungfu_python_init`
does not fail with the `NotInitialized` error — the binding performs no
lifecycle check and instead dereferences the null `_default_peer`
handle. -/
theorem uid_before_init_not_notInit :
    (kungfu_uid procStart).1 = Except.error Err.nullDeref ∧
    (kungfu_uid procStart).1 ≠ Except.error Err.notInit := by
  constructor
  · rfl
  · intro h
    simp [kungfu_uid, readPeer, procStart] at h

/-- C1 (amended): every exposed operation called while no Peer is
installed — before `kungfu_python_init`, or after
`kungfu_python_finialize` (which always leaves the handle null) —
dereferences the null `_default_peer` handle (undefined behaviour,
modelled as the `nullDeref` trap); no `NotInitialized` error is
produced because the binding performs no lifecycle check. -/
theorem ops_outside_bracket_nullDeref (s : Proc) (h : s.handle = none)
    (n idx : Nat) (votes : List Bool) (t f : Bool) :
    (kungfu_uid s).1 = Except.error Err.nullDeref ∧
    (kungfu_detached s).1 = Except.error Err.nullDeref ∧
    (kungfu_rank s).1 = Except.error Err.nullDeref ∧
    (kungfu_size s).1 = Except.error Err.nullDeref ∧
    (kungfu_local_rank s).1 = Except.error Err.nullDeref ∧
    (kungfu_local_size s).1 = Except.error Err.nullDeref ∧
    (kungfu_barrier s).1 = Except.error Err.nullDeref ∧
    (kungfu_propose_new_size s n votes t).1 = Except.error Err.nullDeref ∧
    (kungfu_check_interference s idx).1 = Except.error Err.nullDeref ∧
    (kungfu_change_strategy s).1 = Except.error Err.nullDeref ∧
    (kungfu_log_stats s idx f).1 = Except.error Err.nullDeref ∧
    (kungfu_print_strategy_stats s f).1 = Except.error Err.nullDeref ∧
    (∀ s2 : Proc, (kungfu_python_finialize s2).handle = none) := by
  simp [kungfu_uid, kungfu_detached, kungfu_rank, kungfu_size, kungfu_local_rank,
    kungfu_local_size, kungfu_barrier, kungfu_propose_new_size,
    kungfu_check_interference, kungfu_change_strategy, kungfu_log_stats,
    kungfu_print_strategy_stats, kungfu_python_finialize, readPeer, h]

/-- C1 witness: the amended theorem applied at the start state. -/
theorem ops_outside_bracket_nullDeref_witness :
    (kungfu_rank procStart).1 = Except.error Err.nullDeref :=
  (ops_outside_bracket_nullDeref procStart rfl 0 0 [] false false).2.2.1

/-- C9: `kungfu_python_finialize` is idempotent — with no Peer installed
it leaves the process state unchanged and does not fail, and a second
finalize after a first one is always a no-op (resetting an already-null
owning pointer does nothing). -/
theorem finialize_idempotent (s : Proc) (h : s.handle = none) (ha : s.alive = []) :
    kungfu_python_finialize s = s ∧
    (∀ s2 : Proc, kungfu_python_finialize (kungfu_python_finialize s2) =
      kungfu_python_finialize s2) := by
  constructor
  · cases s with
    | mk hd al np =>
      cases h
      cases ha
      rfl
  · intro s2
    rfl

/-- C9 witness: finalize before any init is a no-op on the start state. -/
theorem finialize_idempotent_witness : kungfu_python_finialize procStart = procStart :=
  (finialize_idempotent procStart rfl rfl).1

/-- C10: `kungfu_python_init` while a Peer is already installed does not
fail and needs no intervening finalize: it constructs a fresh
`kungfu::Peer`, installs it in the process-wide handle, and the
previously installed Peer is destroyed, so afterwards the handle refers
to the newly constructed Peer only. -/
theorem init_replaces_peer (s : Proc) (p : Peer) (h : s.handle = some p)
    (hp : p.pid < s.nextPid) (c : Config) :
    ∃ q : Peer, (kungfu_python_init c s).handle = some q ∧
      q = Peer.create s.nextPid c ∧
      q.pid ≠ p.pid ∧
      (kungfu_python_init c s).alive = [q.pid] ∧
      p.pid ∉ (kungfu_python_init c s).alive := by
  refine ⟨Peer.create s.nextPid c, rfl, rfl, ?_, rfl, ?_⟩
  · simp only [Peer.create]
    omega
  · simp only [kungfu_python_init, List.mem_singleton]
    omega

/-- C10 witness: a second init over `proc0` installs the fresh instance
tag 1. -/
theorem init_replaces_peer_witness : (kungfu_python_init cfg0 proc0).alive = [1] := by
  obtain ⟨q, hq1, hq2, hq3, hq4, hq5⟩ :=
    init_replaces_peer proc0 peer0 rfl (by decide) cfg0
  rw [hq4, hq2]
  rfl

/-- C3: for an initialized process, `kungfu_propose_new_size` signals
its outcome as a boolean result, never as a fault: the result is `ok`
of the negotiation outcome; it is true exactly when the resize to `n`
is in effect afterwards; a false result (reject or timeout) leaves the
peer state unchanged; and a true result means either a fresh unanimous
commit was observed (epoch incremented) or the target size was already
committed. -/
theorem propose_new_size_commit_boolean (s : Proc) (p : Peer) (h : s.handle = some p)
    (n : Nat) (votes : List Bool) (t : Bool) :
    (kungfu_propose_new_size s n votes t).1 = Except.ok (p.proposeNewSize n votes t).1 ∧
    ((p.proposeNewSize n votes t).1 = true ↔
      (p.proposeNewSize n votes t).2.snap.globalSize = n) ∧
    ((p.proposeNewSize n votes t).1 = false → (p.proposeNewSize n votes t).2 = p) ∧
    ((p.proposeNewSize n votes t).1 = true →
      (n = p.snap.globalSize ∧ (p.proposeNewSize n votes t).2 = p) ∨
      (negotiate p votes t = NegoOutcome.commit ∧
        (p.proposeNewSize n votes t).2.epoch = p.epoch + 1)) := by
  refine ⟨by simp [kungfu_propose_new_size, h], ⟨?_, ?_⟩, ?_, ?_⟩
  · exact proposeNewSize_true_size p n votes t
  · intro hs
    by_cases hn : n = p.snap.globalSize
    · simp [Peer.proposeNewSize, hn]
    · cases ho : negotiate p votes t with
      | commit => simp [Peer.proposeNewSize, hn, ho]
      | reject =>
        simp [Peer.proposeNewSize, hn, ho] at hs
        exact absurd hs.symm hn
      | timeout =>
        simp [Peer.proposeNewSize, hn, ho] at hs
        exact absurd hs.symm hn
  · exact proposeNewSize_false_frame p n votes t
  · intro ht
    by_cases hn : n = p.snap.globalSize
    · exact Or.inl ⟨hn, by simp [Peer.proposeNewSize, hn]⟩
    · cases ho : negotiate p votes t with
      | commit =>
        exact Or.inr ⟨rfl, by simp [Peer.proposeNewSize, hn, ho, Peer.commitResize]⟩
      | reject => simp [Peer.proposeNewSize, hn, ho] at ht
      | timeout => simp [Peer.proposeNewSize, hn, ho] at ht

/-- C3 witness: from size 2, a unanimously accepted proposal for size 3
commits and returns true. -/
theorem propose_new_size_commit_boolean_witness :
    (kungfu_propose_new_size proc0 3 [true, true] false).1 = Except.ok true := by
  have h := (propose_new_size_commit_boolean proc0 peer0 rfl 3 [true, true] false).1
  rw [h]
  rfl

/-- C4: for an initialized process, `kungfu_check_interference` is a
pure read (the process state is returned unchanged) that is true iff
the epoch recorded when the operation began differs from the current
epoch; an operation begun and checked within one epoch yields false,
and one spanning a committed resize yields true. -/
theorem check_interference_epoch_change (s : Proc) (p : Peer) (h : s.handle = some p)
    (idx : Nat) :
    kungfu_check_interference s idx = (Except.ok (p.checkInterference idx), s) ∧
    (p.checkInterference idx = true ↔
      ∃ e, p.opEpoch.lookup idx = some e ∧ e ≠ p.epoch) ∧
    (∀ q : Peer, ∀ j : Nat, (q.beginOp j).checkInterference j = false) ∧
    (∀ q : Peer, ∀ j n : Nat,
      ((q.beginOp j).commitResize n).checkInterference j = true) := by
  refine ⟨by simp [kungfu_check_interference, readPeer, h], ?_, ?_, ?_⟩
  · cases hl : p.opEpoch.lookup idx with
    | none => simp [Peer.checkInterference, hl]
    | some e => simp [Peer.checkInterference, hl]
  · intro q j
    simp [Peer.beginOp, Peer.checkInterference, List.lookup]
  · intro q j n
    simp [Peer.beginOp, Peer.commitResize, Peer.checkInterference, List.lookup]

/-- C4 witness: an operation with no recorded start is not interfered
with in the freshly initialized process. -/
theorem check_interference_epoch_change_witness :
    (kungfu_check_interference proc0 5).1 = Except.ok false := by
  have h := (check_interference_epoch_change proc0 peer0 rfl 5).1
  rw [h]
  rfl

/-- C5: for an initialized process, the six identity/topology reads
return the fields of the current Peer and leave the whole process state
(handle, snapshot, epoch, strategy, statistics) unchanged; and
`kungfu_size` reflects the most recently committed resize. -/
theorem identity_reads_pure (s : Proc) (p : Peer) (h : s.handle = some p)
    (n : Nat) (votes : List Bool) (t : Bool) :
    kungfu_uid s = (Except.ok p.uid, s) ∧
    kungfu_detached s = (Except.ok p.detached, s) ∧
    kungfu_rank s = (Except.ok p.rank, s) ∧
    kungfu_size s = (Except.ok p.snap.globalSize, s) ∧
    kungfu_local_rank s = (Except.ok p.localRank, s) ∧
    kungfu_local_size s = (Except.ok p.snap.localSize, s) ∧
    ((kungfu_propose_new_size s n votes t).1 = Except.ok true →
      (kungfu_size (kungfu_propose_new_size s n votes t).2).1 = Except.ok n) := by
  refine ⟨by simp [kungfu_uid, readPeer, h], by simp [kungfu_detached, readPeer, h],
    by simp [kungfu_rank, readPeer, h], by simp [kungfu_size, readPeer, h],
    by simp [kungfu_local_rank, readPeer, h], by simp [kungfu_local_size, readPeer, h],
    ?_⟩
  intro ht
  have h1 : (p.proposeNewSize n votes t).1 = true := by
    simpa [kungfu_propose_new_size, h] using ht
  have h2 := proposeNewSize_true_size p n votes t h1
  simp [kungfu_propose_new_size, h, kungfu_size, readPeer, h2]

/-- C5 witness: the reads applied to the freshly initialized process. -/
theorem identity_reads_pure_witness : kungfu_size proc0 = (Except.ok 2, proc0) :=
  (identity_reads_pure proc0 peer0 rfl 0 [] false).2.2.2.1

/-- C6: for an initialized process, `kungfu_log_stats` and
`kungfu_print_strategy_stats` never fail the caller (they return `ok`),
leave the correctness-relevant state unchanged (snapshot, epoch,
strategy, identity and interference records of the Peer; the handle
stays installed, and the print call changes nothing at all), and an
internal fault is swallowed, merely omitting the output. -/
theorem observability_calls_frame (s : Proc) (p : Peer) (h : s.handle = some p)
    (idx : Nat) (f : Bool) :
    (∃ out p',
      kungfu_log_stats s idx f = (Except.ok out, { s with handle := some p' }) ∧
      p'.snap = p.snap ∧ p'.epoch = p.epoch ∧ p'.strategy = p.strategy ∧
      p'.pid = p.pid ∧ p'.uid = p.uid ∧ p'.rank = p.rank ∧
      p'.opEpoch = p.opEpoch ∧ (f = true → out = none)) ∧
    (∃ out2,
      kungfu_print_strategy_stats s f = (Except.ok out2, s) ∧
      (f = true → out2 = none)) := by
  constructor
  · cases f with
    | false =>
      refine ⟨some (toString idx), { p with stats := bumpStat p.stats idx },
        ?_, rfl, rfl, rfl, rfl, rfl, rfl, rfl, by simp⟩
      simp [kungfu_log_stats, h, Peer.logStats]
    | true =>
      refine ⟨none, p, ?_, rfl, rfl, rfl, rfl, rfl, rfl, rfl, fun _ => rfl⟩
      cases s with
      | mk hd al np =>
        cases h
        simp [kungfu_log_stats, Peer.logStats]
  · cases f with
    | false =>
      refine ⟨some (strategyName p.strategy), ?_, by simp⟩
      simp [kungfu_print_strategy_stats, h, Peer.printStategyStats]
    | true =>
      refine ⟨none, ?_, fun _ => rfl⟩
      simp [kungfu_print_strategy_stats, h, Peer.printStategyStats]

/-- C6 witness: a faulted print call still returns `ok` with the output
omitted. -/
theorem observability_calls_frame_witness :
    (kungfu_print_strategy_stats proc0 true).1 = Except.ok none := by
  obtain ⟨out2, he, hf⟩ := (observability_calls_frame proc0 peer0 rfl 0 true).2
  rw [he, hf rfl]

/-- C8: re-issuing an already-committed proposal for the current target
size is a no-op: it returns true and performs no state transition (the
Peer, hence the Topology Snapshot and the epoch, are unchanged), both at
the Peer level and through the binding. -/
theorem propose_new_size_idempotent (p : Peer) (n : Nat) (votes : List Bool) (t : Bool)
    (h : p.snap.globalSize = n) :
    p.proposeNewSize n votes t = (true, p) ∧
    (∀ s : Proc, s.handle = some p →
      kungfu_propose_new_size s n votes t = (Except.ok true, s)) := by
  have h1 : p.proposeNewSize n votes t = (true, p) := by
    simp [Peer.proposeNewSize, h]
  refine ⟨h1, ?_⟩
  intro s hs
  cases s with
  | mk hd al np =>
    cases hs
    simp [kungfu_propose_new_size, h1]

/-- C8 witness: proposing the already-current size 2 right after init
returns true and leaves the process state exactly as it was. -/
theorem propose_new_size_idempotent_witness :
    kungfu_propose_new_size proc0 2 [] false = (Except.ok true, proc0) :=
  (propose_new_size_idempotent peer0 2 [] false rfl).2 proc0 rfl

theorem pstep_nonlifecycle_frame (s : Proc) (e : PEvent) (h : e.isLifecycle = false) :
    (pstep s e).alive = s.alive ∧
    (pstep s e).handle.map Peer.pid = s.handle.map Peer.pid := by
  cases e <;> cases hh : s.handle <;>
    simp_all [pstep, PEvent.isLifecycle, kungfu_uid, kungfu_detached, kungfu_rank,
      kungfu_size, kungfu_local_rank, kungfu_local_size, kungfu_barrier,
      kungfu_propose_new_size, kungfu_check_interference, kungfu_change_strategy,
      kungfu_log_stats, kungfu_print_strategy_stats, readPeer,
      proposeNewSize_pid, changeStrategy_pid, logStats_pid, beginOp_pid]

theorem runTrace_alive_le_one (tr : List PEvent) (s : Proc) (hs : s.alive.length ≤ 1) :
    (runTrace s tr).alive.length ≤ 1 := by
  induction tr generalizing s with
  | nil => exact hs
  | cons e tr ih =>
    refine ih (pstep s e) ?_
    cases he : e.isLifecycle
    · rw [(pstep_nonlifecycle_frame s e he).1]
      exact hs
    · cases e with
      | pinit c => simp [pstep, kungfu_python_init]
      | pfin => simp [pstep, kungfu_python_finialize]
      | quid => simp [PEvent.isLifecycle] at he
      | qdetached => simp [PEvent.isLifecycle] at he
      | qrank => simp [PEvent.isLifecycle] at he
      | qsize => simp [PEvent.isLifecycle] at he
      | qlocalRank => simp [PEvent.isLifecycle] at he
      | qlocalSize => simp [PEvent.isLifecycle] at he
      | qbarrier => simp [PEvent.isLifecycle] at he
      | qpropose n votes t => simp [PEvent.isLifecycle] at he
      | qcheck idx => simp [PEvent.isLifecycle] at he
      | qchange => simp [PEvent.isLifecycle] at he
      | qlog idx f => simp [PEvent.isLifecycle] at he
      | qprint f => simp [PEvent.isLifecycle] at he
      | qbegin idx => simp [PEvent.isLifecycle] at he

/-- C2: the process-wide handle is a singleton by construction of the
binding: along every sequence of binding calls starting at process
start, at most one `kungfu::Peer` is alive; `kungfu_python_init`
installs exactly one freshly constructed Peer (the one the handle then
refers to); `kungfu_python_finialize` destroys it leaving none alive;
and no non-lifecycle operation creates or destroys a Peer (the alive
set and the identity of the installed Peer are preserved). -/
theorem peer_singleton_lifecycle :
    (∀ tr : List PEvent, (runTrace procStart tr).alive.length ≤ 1) ∧
    (∀ s : Proc, ∀ c : Config, ∃ q : Peer,
      (pstep s (PEvent.pinit c)).handle = some q ∧
      (pstep s (PEvent.pinit c)).alive = [q.pid]) ∧
    (∀ s : Proc, (pstep s PEvent.pfin).handle = none ∧
      (pstep s PEvent.pfin).alive = []) ∧
    (∀ s : Proc, ∀ e : PEvent, e.isLifecycle = false →
      (pstep s e).alive = s.alive ∧
      (pstep s e).handle.map Peer.pid = s.handle.map Peer.pid) := by
  refine ⟨?_, ?_, ?_, pstep_nonlifecycle_frame⟩
  · intro tr
    exact runTrace_alive_le_one tr procStart (by simp [procStart])
  · intro s c
    exact ⟨Peer.create s.nextPid c, rfl, rfl⟩
  · intro s
    exact ⟨rfl, rfl⟩

/-- C2 witness: a read call preserves the alive set at the start
state. -/
theorem peer_singleton_lifecycle_witness :
    (pstep procStart PEvent.qrank).alive = procStart.alive :=
  (peer_singleton_lifecycle.2.2.2 procStart PEvent.qrank rfl).1

theorem btrace_release_after_arrivals (l1 : List BEvent) (s0 s2 : BState) (q : Nat)
    (l2 : List BEvent) (htr : BTrace s0 (l1 ++ BEvent.release q :: l2) s2) :
    ∀ m ∈ s0.members, m ∈ s0.arrived ∨ BEvent.arrive m ∈ l1 := by
  induction l1 generalizing s0 with
  | nil =>
    simp only [List.nil_append] at htr
    cases htr with
    | cons s s' s'' e tr h1 h2 =>
      cases h1 with
      | release r hall => exact fun m hm => Or.inl (hall m hm)
  | cons e l1 ih =>
    simp only [List.cons_append] at htr
    cases htr with
    | cons s s' s'' e' tr h1 h2 =>
      cases h1 with
      | arrive r hr =>
        intro m hm
        rcases ih _ h2 m hm with hmem | harr
        · rcases List.mem_cons.mp hmem with hmr | hmem'
          · subst hmr
            exact Or.inr (List.mem_cons_self _ _)
          · exact Or.inl hmem'
        · exact Or.inr (List.mem_cons_of_mem _ harr)
      | release r hall =>
        intro m hm
        rcases ih _ h2 m hm with hmem | harr
        · exact Or.inl hmem
        · exact Or.inr (List.mem_cons_of_mem _ harr)

/-- C7: in every interleaving the Barrier Coordinator permits, a
`barrier()` call of the generation returns (`release`) only after every
currently-active member has issued its own call (`arrive`) earlier in
the interleaving — no peer returns early — and a release step is enabled
only in states where all members have arrived. -/
theorem barrier_no_early_return (s0 s2 : BState) (q : Nat) (l1 l2 : List BEvent)
    (h0 : s0.arrived = [])
    (htr : BTrace s0 (l1 ++ BEvent.release q :: l2) s2) :
    (∀ m ∈ s0.members, BEvent.arrive m ∈ l1) ∧
    (∀ s s' : BState, ∀ r : Nat,
      BStep s (BEvent.release r) s' → ∀ m ∈ s.members, m ∈ s.arrived) := by
  constructor
  · intro m hm
    rcases btrace_release_after_arrivals l1 s0 s2 q l2 htr m hm with hmem | harr
    · rw [h0] at hmem
      exact absurd hmem (List.not_mem_nil m)
    · exact harr
  · intro s s' r hstep
    cases hstep with
    | release r hall => exact hall

/-- Barrier states used by the C7 witness: two members, none arrived;
one arrived; both arrived. -/
def bs0 : BState := { members := [0, 1], arrived := [] }

/-- One member arrived. -/
def bs1 : BState := { members := [0, 1], arrived := [0] }

/-- Both members arrived. -/
def bs2 : BState := { members := [0, 1], arrived := [1, 0] }

/-- C7 witness: in the concrete interleaving
`arrive 0; arrive 1; release 0` of a two-member group, member 1's
arrival indeed precedes the release. -/
theorem barrier_no_early_return_witness :
    BEvent.arrive 1 ∈ [BEvent.arrive 0, BEvent.arrive 1] := by
  have h1 : BStep bs0 (BEvent.arrive 0) bs1 := BStep.arrive bs0 0 (by decide)
  have h2 : BStep bs1 (BEvent.arrive 1) bs2 := BStep.arrive bs1 1 (by decide)
  have h3 : BStep bs2 (BEvent.release 0) bs2 := BStep.release bs2 0 (by decide)
  have htr :
      BTrace bs0 ([BEvent.arrive 0, BEvent.arrive 1] ++ BEvent.release 0 :: []) bs2 :=
    BTrace.cons _ _ _ _ _ h1
      (BTrace.cons _ _ _ _ _ h2 (BTrace.cons _ _ _ _ _ h3 (BTrace.nil _)))
  exact (barrier_no_early_return bs0 bs2 0 [BEvent.arrive 0, BEvent.arrive 1] [] rfl
    htr).1 1 (by decide)

end KungFu
